import Mathlib

/-
Verification development for the Fluid Framework real-time collaboration
gateway (`configureWebSocketServices` and its helpers): a shallow embedding
of the connect pipeline, the message sanitizer, the protocol-version
negotiator and the submitOp dispatch, together with theorems settling the
behavioural claims about them.

Modelling conventions:
 * JavaScript objects carrying operation payloads are association lists
   from field names to `JsVal` (value semantics; an absent property reads
   as `JsVal.undef`, as property access on a JS object yields `undefined`).
 * Asynchronous collaborators (tenant manager, client registry, orderer
   manager, token library, throttler, clientId generator, clock) are
   oracles recorded in a `ConnectEnv`: each field holds the outcome the
   collaborator produced for this call.
 * The per-socket mutable maps are threaded explicitly through
   `connectDocument` as a `SocketState`; rejected promises return the
   state as mutated so far, exactly as the mutations of the closed-over
   maps survive a rejection in the source.
-/

namespace FluidGateway

/-! ## JavaScript value model -/

/-- A JavaScript value as far as the gateway inspects one. -/
inductive JsVal where
  | undef : JsVal
  | str : String → JsVal
  | num : Int → JsVal
  | arr : List JsVal → JsVal
  | obj : List (String × JsVal) → JsVal

/-- A JavaScript object: field name to value, value semantics. -/
abbrev JsObj := List (String × JsVal)

/-- Property read: an absent field yields `undefined`. -/
def getField (m : JsObj) (k : String) : JsVal :=
  (List.lookup k m).getD JsVal.undef

/-- Property write: replaces the field `k`, keeps every other field. -/
def setField (m : JsObj) (k : String) (v : JsVal) : JsObj :=
  (k, v) :: List.filter (fun p => !(p.fst == k)) m

/-- JavaScript truthiness of the values the gateway tests. -/
def truthy : JsVal → Bool
  | JsVal.undef => false
  | JsVal.str s => !(s == "")
  | JsVal.num n => !(n == 0)
  | JsVal.arr _ => true
  | JsVal.obj _ => true

/-! ## Message sanitizer (`sanitizeMessage`) -/

/-- The tracing span appended by the 1-in-100 sampling branch. -/
def traceSpan (nowMs : Nat) : JsVal :=
  JsVal.obj [("action", JsVal.str "start"), ("service", JsVal.str "alfred"),
             ("timestamp", JsVal.num (Int.ofNat nowMs))]

/--
The trace-sampling mutation performed by `sanitizeMessage` before the
projection: when `message.operation` and `message.operation.traces` are
truthy and the 1-in-100 draw fires (`sample = true`, standing for
`getRandomInt(100) === 0`), a span is pushed onto `operation.traces`.
The push demands an array; the model covers the array-valued case, on
which the source's `.push` is defined.
-/
def sanitizeMutate (sample : Bool) (nowMs : Nat) (message : JsObj) : JsObj :=
  match List.lookup "operation" message with
  | some (JsVal.obj op) =>
    match List.lookup "traces" op with
    | some (JsVal.arr ts) =>
      if sample then
        setField message "operation"
          (JsVal.obj (setField op "traces" (JsVal.arr (ts ++ [traceSpan nowMs]))))
      else message
    | _ => message
  | _ => message

/-- The whitelisted fields of the sanitized message, in source order. -/
def sanitizedFields : List String :=
  ["clientSequenceNumber", "contents", "metadata", "referenceSequenceNumber",
   "traces", "type"]

/--
`sanitizeMessage`: runs the trace-sampling mutation, then projects the
message onto the whitelisted `IDocumentMessage` fields.
-/
def sanitizeMessage (sample : Bool) (nowMs : Nat) (message : JsObj) : JsObj :=
  let message := sanitizeMutate sample nowMs message
  [("clientSequenceNumber", getField message "clientSequenceNumber"),
   ("contents", getField message "contents"),
   ("metadata", getField message "metadata"),
   ("referenceSequenceNumber", getField message "referenceSequenceNumber"),
   ("traces", getField message "traces"),
   ("type", getField message "type")]

/-! ## Protocol-version negotiator -/

/--
A caret semver range `^major.minor.patch`. The server's preference list and
the clients' offers in every scenario of the spec are caret ranges, so the
embedding models this fragment of the node-semver range grammar.
-/
structure CaretRange where
  major : Nat
  minor : Nat
  patch : Nat
deriving DecidableEq

/-- Lexicographic strict order on version triples. -/
def verLt (a b : Nat × Nat × Nat) : Bool :=
  a.1 < b.1 || (a.1 == b.1 && (a.2.1 < b.2.1 || (a.2.1 == b.2.1 && a.2.2 < b.2.2)))

/-- Inclusive lower bound of a caret range. -/
def CaretRange.lo (r : CaretRange) : Nat × Nat × Nat := (r.major, r.minor, r.patch)

/--
Exclusive upper bound of a caret range, per node-semver: `^a.b.c` with
`a > 0` allows up to `(a+1).0.0`; `^0.b.c` with `b > 0` up to `0.(b+1).0`;
`^0.0.c` only `0.0.c` itself.
-/
def CaretRange.hi (r : CaretRange) : Nat × Nat × Nat :=
  if r.major > 0 then (r.major + 1, 0, 0)
  else if r.minor > 0 then (0, r.minor + 1, 0)
  else (0, 0, r.patch + 1)

/--
`semver.intersects` on caret ranges: the two half-open version intervals
overlap.
-/
def semverIntersects (a b : CaretRange) : Bool :=
  verLt a.lo b.hi && verLt b.lo a.hi

/-- The server's ordered preference list `["^0.4.0", "^0.3.0", "^0.2.0", "^0.1.0"]`. -/
def protocolVersions : List CaretRange :=
  [⟨0, 4, 0⟩, ⟨0, 3, 0⟩, ⟨0, 2, 0⟩, ⟨0, 1, 0⟩]

/--
`selectProtocolVersion`: iterates the client-offered ranges in order
(outer loop) and for each one scans the server preference list (inner
loop), returning the first server range that intersects the current
client range.
-/
def selectProtocolVersion (connectVersions : List CaretRange) : Option CaretRange :=
  match connectVersions with
  | [] => none
  | connectVersion :: rest =>
    match List.find? (fun protocolVersion => semverIntersects protocolVersion connectVersion)
        protocolVersions with
    | some protocolVersion => some protocolVersion
    | none => selectProtocolVersion rest

/--
The spec's description of the negotiator, transcribed for comparison: for
the first client range that intersects anything the server supports, pick
the most-preferred intersecting server range.
-/
def clientOrderedChoice (connectVersions : List CaretRange) : Option CaretRange :=
  match List.find?
      (fun c => List.any protocolVersions (fun p => semverIntersects p c)) connectVersions with
  | some c => List.find? (fun p => semverIntersects p c) protocolVersions
  | none => none

/--
The claim's description of the negotiator, transcribed for comparison: the
first element of the server preference list intersecting ANY client range.
-/
def serverOrderedChoice (connectVersions : List CaretRange) : Option CaretRange :=
  List.find?
    (fun p => List.any connectVersions (fun c => semverIntersects p c)) protocolVersions

/-! ## Scopes and scope helpers -/

/-- Wire value of the `DocRead` scope. -/
def ScopeType.DocRead : String := "doc:read"

/-- Wire value of the `DocWrite` scope. -/
def ScopeType.DocWrite : String := "doc:write"

/-- Wire value of the `SummaryWrite` scope. -/
def ScopeType.SummaryWrite : String := "summary:write"

/-- Modelled from the spec: collaborator scope helper `canWrite` (the scopes grant `DocWrite`). -/
def canWrite (scopes : List String) : Bool :=
  List.contains scopes ScopeType.DocWrite

/-- Modelled from the spec: collaborator scope helper `canSummarize` (the scopes grant `SummaryWrite`). -/
def canSummarize (scopes : List String) : Bool :=
  List.contains scopes ScopeType.SummaryWrite

/-- `hasWriteAccess`: the client may write or summarize. -/
def hasWriteAccess (scopes : List String) : Bool :=
  canWrite scopes || canSummarize scopes

/-- `isWriter`: write-capable scopes and the client requested `mode == "write"`. -/
def isWriter (scopes : List String) (mode : String) : Bool :=
  if hasWriteAccess scopes then mode == "write" else false

/-! ## Nack messages -/

/-- The nack error classes used by the gateway. -/
def NackErrorType.BadRequestError : String := "BadRequestError"

def NackErrorType.InvalidScopeError : String := "InvalidScopeError"

def NackErrorType.ThrottlingError : String := "ThrottlingError"

/-- The content of a negative acknowledgment sent on the `nack` channel. -/
structure INack where
  code : Nat
  type : String
  message : String
  retryAfter : Option Nat
deriving DecidableEq

/-- Modelled from the spec: `createNackMessage` (in the package's utils, not included here) packages `{code, type, message, retryAfter?}` into a NackMessage. -/
def createNackMessage (code : Nat) (type : String) (message : String)
    (retryAfter : Option Nat) : INack :=
  { code := code, type := type, message := message, retryAfter := retryAfter }

/-! ## Data model of the connect pipeline -/

/-- A room: tenant-scoped document broadcast group. -/
structure IRoom where
  tenantId : String
  documentId : String
deriving DecidableEq

/-- Canonical room key `tenantId/documentId`. -/
def getRoomId (room : IRoom) : String :=
  room.tenantId ++ "/" ++ room.documentId

/-- Verified claims decoded from the bearer token. -/
structure ITokenClaims where
  tenantId : String
  documentId : String
  user : String
  scopes : List String
deriving DecidableEq

/-- The `details` member of a caller-supplied client descriptor. -/
structure IClientDetails where
  type : Option String
deriving DecidableEq

/-- The caller-supplied client descriptor (`message.client`), as far as the gateway reads it. -/
structure IClientIn where
  details : Option IClientDetails
deriving DecidableEq

/-- The composed client descriptor after `connectDocument` overwrites `user`, `scopes` and stamps `timestamp`. -/
structure ComposedClient where
  details : Option IClientDetails
  user : String
  scopes : List String
  timestamp : Nat
deriving DecidableEq

/-- An orderer's service configuration (opaque to the gateway beyond its three members). -/
structure ServiceConfig where
  blockSize : Nat
  maxMessageSize : Nat
  summary : Nat
deriving DecidableEq

/-- Collaborator constant `core.DefaultServiceConfiguration`; the member values are immaterial here. -/
def DefaultServiceConfiguration : ServiceConfig :=
  { blockSize := 65536, maxMessageSize := 16384, summary := 0 }

/-- An established orderer connection handle, as read by the gateway. -/
structure IOrdererConnection where
  tenantId : String
  documentId : String
  maxMessageSize : Nat
  serviceConfiguration : ServiceConfig
deriving DecidableEq

/-- The `connect_document` request envelope, the fields the gateway uses. -/
structure IConnect where
  tenantId : String
  id : String
  token : Option String
  client : Option IClientIn
  versions : Option (List CaretRange)
  mode : String
deriving DecidableEq

/-- The `connect_document_success` payload. -/
structure IConnected where
  claims : ITokenClaims
  clientId : String
  existing : Bool
  maxMessageSize : Nat
  mode : String
  serviceConfiguration : ServiceConfig
  initialClients : List String
  initialMessages : List String
  initialSignals : List String
  supportedVersions : List CaretRange
  version : CaretRange
  timestamp : Nat
deriving DecidableEq

/-- The value `connectDocument` resolves with. -/
structure IConnectedClient where
  connection : IConnected
  connectVersions : List CaretRange
  details : ComposedClient
deriving DecidableEq

/-- An error object a step of the connect pipeline rejects with. -/
structure ErrObj where
  code : Nat
  message : String
  retryAfter : Option Nat
deriving DecidableEq

/-- The opaque internal-fault rejection produced by `handleServerError`. -/
def serverErrorObj : ErrObj :=
  { code := 500, message := "Failed to connect client to document.", retryAfter := none }

/-- The per-socket mutable state closed over by the event handlers. -/
structure SocketState where
  connectionsMap : List (String × IOrdererConnection)
  roomMap : List (String × IRoom)
  scopeMap : List (String × List String)
  expirationTimer : Option Nat
deriving DecidableEq

/-- `Map.set`: bind `k` to `v`, replacing any previous binding. -/
def mapSet {α : Type} (k : String) (v : α) (m : List (String × α)) : List (String × α) :=
  (k, v) :: List.filter (fun p => !(p.fst == k)) m

/-- `setExpirationTimer`: clear the previous timer and arm a fresh one for `deadline`. -/
def setExpirationTimer (st : SocketState) (deadline : Nat) : SocketState :=
  { st with expirationTimer := some deadline }

/-- Arguments of a `clientManager.addClient` call. -/
structure AddClientCall where
  tenantId : String
  documentId : String
  clientId : String
  client : ComposedClient
deriving DecidableEq

/-- Trace of registry calls issued by one `connectDocument` run. -/
structure ConnectTrace where
  addClientCalls : List AddClientCall
deriving DecidableEq

/-- The empty trace. -/
def ConnectTrace.empty : ConnectTrace := { addClientCalls := [] }

/-- Configuration options of `configureWebSocketServices` relevant to the claims. -/
structure Config where
  maxNumberOfClientsPerDocument : Nat
  maxTokenLifetimeSec : Nat
  isTokenExpiryEnabled : Bool
deriving DecidableEq

/--
Collaborator outcomes for one `connectDocument` call. Each field records
what the corresponding collaborator did when the pipeline reached it:

* `throttleError`: result of `checkThrottle` on the connect throttler
  (`some e` when the limiter signalled exceeded; `none` when no limiter is
  configured, the increment succeeded, or the limiter itself failed —
  fail-open).
* `claimsResult`: `validateTokenClaims` returning claims or throwing.
* `verifyTokenResult`: `tenantManager.verifyToken`, whose failure carries
  the optional upstream `response.status` and `response.data`.
* `clientId`: the id minted by `generateClientId`.
* `joinResult`: joining the transport rooms.
* `now`: `Date.now()` at the connect timestamp.
* `getClientsResult`: the registry's current client list for the document.
* `addClientResult`: `clientManager.addClient`.
* `lifeTimeMSec`: `validateTokenClaimsExpiration`'s remaining lifetime.
* `getOrdererResult` / `ordererConnectResult`: the writer path's orderer
  manager fetch and orderer connect.
-/
structure ConnectEnv where
  throttleError : Option ErrObj
  claimsResult : Except ErrObj ITokenClaims
  verifyTokenResult : Except (Option Nat × Option String) Unit
  clientId : String
  joinResult : Except String Unit
  now : Nat
  getClientsResult : Except String (List String)
  addClientResult : Except String Unit
  lifeTimeMSec : Nat
  getOrdererResult : Except String Unit
  ordererConnectResult : Except String IOrdererConnection

/-- `details?.type` of the caller-supplied client object. -/
def clientDetailsType (client : Option IClientIn) : Option String :=
  Option.bind (Option.bind client IClientIn.details) IClientDetails.type

/-- The summarizer client type constant. -/
def summarizerClientType : String := "summarizer"

/--
Compose the client descriptor: start from the caller-supplied client (or
`{}`), overwrite `user` and `scopes` from the claims — stripping
`SummaryWrite` unless `details.type == "summarizer"` — and stamp the
connect timestamp.
-/
def composeClient (message : IConnect) (claims : ITokenClaims)
    (connectedTimestamp : Nat) : ComposedClient :=
  let isSummarizer := clientDetailsType message.client == some summarizerClientType
  { details := Option.bind message.client IClientIn.details
  , user := claims.user
  , scopes :=
      if isSummarizer then claims.scopes
      else List.filter (fun scope => !(scope == ScopeType.SummaryWrite)) claims.scopes
  , timestamp := connectedTimestamp }

/-- `message.versions ? message.versions : ["^0.1.0"]`: only an absent (undefined/null, hence falsy) versions field is defaulted; an empty array is truthy in JavaScript and is kept as-is. -/
def connectVersionsOf (message : IConnect) : List CaretRange :=
  match message.versions with
  | some versions => versions
  | none => [⟨0, 1, 0⟩]

/-- Rendering of a caret range, for the 400 error text. -/
def caretStr (r : CaretRange) : String :=
  "^" ++ toString r.major ++ "." ++ toString r.minor ++ "." ++ toString r.patch

/-- The unsupported-protocol rejection text, echoing both lists. -/
def unsupportedProtocolMessage (connectVersions : List CaretRange) : String :=
  "Unsupported client protocol. " ++
  "Server: " ++ String.intercalate "," (List.map caretStr protocolVersions) ++ ". " ++
  "Client: [" ++
  String.intercalate "," (List.map (fun r => "\"" ++ caretStr r ++ "\"") connectVersions) ++ "]"

/-- The writer-mode `connect_document_success` payload. -/
def writerConnectedMessage (claims : ITokenClaims) (clientId : String)
    (connection : IOrdererConnection) (clients : List String) (version : CaretRange)
    (connectedTimestamp : Nat) : IConnected :=
  { claims := claims, clientId := clientId, existing := true
  , maxMessageSize := connection.maxMessageSize, mode := "write"
  , serviceConfiguration :=
      { blockSize := connection.serviceConfiguration.blockSize
      , maxMessageSize := connection.serviceConfiguration.maxMessageSize
      , summary := connection.serviceConfiguration.summary }
  , initialClients := clients, initialMessages := [], initialSignals := []
  , supportedVersions := protocolVersions, version := version
  , timestamp := connectedTimestamp }

/-- The reader-mode `connect_document_success` payload (readers cannot send ops, so `maxMessageSize = 1024` and the platform default service configuration). -/
def readerConnectedMessage (claims : ITokenClaims) (clientId : String)
    (clients : List String) (version : CaretRange) (connectedTimestamp : Nat) : IConnected :=
  { claims := claims, clientId := clientId, existing := true
  , maxMessageSize := 1024, mode := "read"
  , serviceConfiguration :=
      { blockSize := DefaultServiceConfiguration.blockSize
      , maxMessageSize := DefaultServiceConfiguration.maxMessageSize
      , summary := DefaultServiceConfiguration.summary }
  , initialClients := clients, initialMessages := [], initialSignals := []
  , supportedVersions := protocolVersions, version := version
  , timestamp := connectedTimestamp }

/--
`connectDocument`, step for step:
throttle → token presence → claim validation → tenant verification →
mint clientId → transport room join → compose descriptor → cache scopes →
cache room → protocol negotiation → quota → registry add → expiration arm →
mode selection (orderer attach for writers) → response composition.

A rejection returns the error together with the per-socket state as
mutated so far (the source mutates the closed-over maps in place, so
mutations made before the failing step survive it).
-/
def connectDocument (cfg : Config) (env : ConnectEnv) (message : IConnect)
    (st : SocketState) : Except ErrObj IConnectedClient × SocketState × ConnectTrace :=
  match env.throttleError with
  | some throttleError => (Except.error throttleError, st, ConnectTrace.empty)
  | none =>
    match message.token with
    | none =>
      (Except.error
        { code := 403, message := "Must provide an authorization token", retryAfter := none },
        st, ConnectTrace.empty)
    | some _token =>
      match env.claimsResult with
      | Except.error err => (Except.error err, st, ConnectTrace.empty)
      | Except.ok claims =>
        match env.verifyTokenResult with
        | Except.error err =>
          (Except.error
            { code := (err.fst).getD 401
            , message := (err.snd).getD "Invalid token", retryAfter := none },
            st, ConnectTrace.empty)
        | Except.ok _ =>
          let clientId := env.clientId
          let room : IRoom := { tenantId := claims.tenantId, documentId := claims.documentId }
          match env.joinResult with
          | Except.error _ => (Except.error serverErrorObj, st, ConnectTrace.empty)
          | Except.ok _ =>
            let connectedTimestamp := env.now
            let messageClient := composeClient message claims connectedTimestamp
            let st := { st with scopeMap := mapSet clientId messageClient.scopes st.scopeMap }
            let st := { st with roomMap := mapSet clientId room st.roomMap }
            let connectVersions := connectVersionsOf message
            match selectProtocolVersion connectVersions with
            | none =>
              (Except.error
                { code := 400, message := unsupportedProtocolMessage connectVersions
                , retryAfter := none },
                st, ConnectTrace.empty)
            | some version =>
              match env.getClientsResult with
              | Except.error _ => (Except.error serverErrorObj, st, ConnectTrace.empty)
              | Except.ok clients =>
                if clients.length > cfg.maxNumberOfClientsPerDocument then
                  (Except.error
                    { code := 429, message := "Too Many Clients Connected to Document"
                    , retryAfter := some (5 * 60) },
                    st, ConnectTrace.empty)
                else
                  let trace : ConnectTrace :=
                    { addClientCalls :=
                        [{ tenantId := claims.tenantId, documentId := claims.documentId
                         , clientId := clientId, client := messageClient }] }
                  match env.addClientResult with
                  | Except.error _ => (Except.error serverErrorObj, st, trace)
                  | Except.ok _ =>
                    let st :=
                      if cfg.isTokenExpiryEnabled then
                        setExpirationTimer st (env.now + env.lifeTimeMSec)
                      else st
                    if isWriter messageClient.scopes message.mode then
                      match env.getOrdererResult with
                      | Except.error _ => (Except.error serverErrorObj, st, trace)
                      | Except.ok _ =>
                        match env.ordererConnectResult with
                        | Except.error _ => (Except.error serverErrorObj, st, trace)
                        | Except.ok connection =>
                          let st :=
                            { st with connectionsMap :=
                                mapSet clientId connection st.connectionsMap }
                          (Except.ok
                            { connection :=
                                writerConnectedMessage claims clientId connection clients
                                  version connectedTimestamp
                            , connectVersions := connectVersions
                            , details := messageClient },
                            st, trace)
                    else
                      (Except.ok
                        { connection :=
                            readerConnectedMessage claims clientId clients version
                              connectedTimestamp
                        , connectVersions := connectVersions
                        , details := messageClient },
                        st, trace)

/-- Events a `connect_document` request emits on the socket. -/
inductive SocketEmit where
  | connectDocumentSuccess (m : IConnected)
  | connectDocumentError (e : ErrObj)
  | signalJoin (roomId : String) (clientId : String)
deriving DecidableEq

/--
The `connect_document` socket handler: on resolution emit
`connect_document_success` and the room-join signal; on rejection emit
`connect_document_error` with the error untouched.
-/
def connectDocumentHandlerEmits (cfg : Config) (env : ConnectEnv) (message : IConnect)
    (st : SocketState) : List SocketEmit :=
  match connectDocument cfg env message st with
  | (Except.ok m, stAfter, _) =>
    SocketEmit.connectDocumentSuccess m.connection ::
    (match List.lookup m.connection.clientId stAfter.roomMap with
     | some room => [SocketEmit.signalJoin (getRoomId room) m.connection.clientId]
     | none => [])
  | (Except.error e, _, _) => [SocketEmit.connectDocumentError e]

/-- `Except.isOk` as a plain Boolean. -/
def isOkE {ε α : Type} : Except ε α → Bool
  | Except.ok _ => true
  | Except.error _ => false

/-- The error code of a rejection, if any. -/
def errCodeOf {α : Type} : Except ErrObj α → Option Nat
  | Except.ok _ => none
  | Except.error e => some e.code

/--
The connect steps that fail before the pipeline caches scopes and room
(throttle, missing token, claim validation, tenant verification, room
join), characterized by the collaborator outcomes that trigger them.
-/
def earlyConnectFailure (env : ConnectEnv) (message : IConnect) : Prop :=
  env.throttleError.isSome = true ∨
  message.token = none ∨
  (∃ e, env.claimsResult = Except.error e) ∨
  (∃ p, env.verifyTokenResult = Except.error p) ∨
  (∃ s, env.joinResult = Except.error s)

/-! ## submitOp dispatch -/

/-- Modelled from the spec: the wire value of `MessageType.RoundTrip`; only its equality with `message.type` matters. -/
def MessageType.RoundTrip : String := "tripComplete"

/-- `message.type === MessageType.RoundTrip` (a non-string type compares unequal). -/
def isRoundTrip (m : JsObj) : Bool :=
  match getField m "type" with
  | JsVal.str s => s == MessageType.RoundTrip
  | _ => false

/-- The latency sample a RoundTrip message submits to the metric sink: its truthy `traces` value. -/
def roundTripTraces (m : JsObj) : Option JsVal :=
  if isRoundTrip m && truthy (getField m "traces") then some (getField m "traces") else none

/-- A `submitOp` batch element: a single op or an array of ops. -/
abbrev SubmitBatch := Sum JsObj (List JsObj)

/-- `Array.isArray(messageBatch) ? messageBatch : [messageBatch]`. -/
def flattenBatch : SubmitBatch → List JsObj
  | Sum.inl m => [m]
  | Sum.inr ms => ms

/-- The sanitized (non-RoundTrip, whitelisted) content of one batch: `.filter(...).map((message) => sanitizeMessage(message))`. -/
def batchSanitized (rand : JsObj → Bool) (nowMs : Nat) (b : SubmitBatch) : List JsObj :=
  List.map (fun m => sanitizeMessage (rand m) nowMs m)
    (List.filter (fun m => !(isRoundTrip m)) (flattenBatch b))

/--
Per-batch processing of `submitOp`: the filter excludes RoundTrip
messages, writing the truthy `traces` of each to the metric sink as it
goes; the survivors are sanitized, and a non-empty result is handed to
`connection.order`. Returns the sequence of `order` calls and of metric
sink calls.
-/
def processBatches (rand : JsObj → Bool) (nowMs : Nat) :
    List SubmitBatch → List (List JsObj) × List JsVal
  | [] => ([], [])
  | b :: rest =>
    let messages := flattenBatch b
    let metrics := List.filterMap roundTripTraces messages
    let sanitized := batchSanitized rand nowMs b
    let restResult := processBatches rand nowMs rest
    ((if sanitized.length > 0 then sanitized :: restResult.fst else restResult.fst),
     metrics ++ restResult.snd)

/-- What one `submitOp` dispatch produced. -/
structure SubmitOutcome where
  nacks : List INack
  orderCalls : List (List JsObj)
  metricCalls : List JsVal

/--
The `submitOp` socket handler. `throttleError` is the outcome of
`checkThrottle` on the submit-op throttler; `rand` is the oracle for the
per-message `getRandomInt(100) === 0` draw inside `sanitizeMessage`.
-/
def submitOpHandler (st : SocketState) (throttleError : Option ErrObj)
    (rand : JsObj → Bool) (nowMs : Nat) (clientId : String)
    (messageBatches : List SubmitBatch) : SubmitOutcome :=
  match List.lookup clientId st.connectionsMap with
  | none =>
    let clientScope := List.lookup clientId st.scopeMap
    let nackMessage :=
      if clientScope.isSome && hasWriteAccess (clientScope.getD []) then
        createNackMessage 400 NackErrorType.BadRequestError "Readonly client" none
      else if (List.lookup clientId st.roomMap).isSome then
        createNackMessage 403 NackErrorType.InvalidScopeError "Invalid scope" none
      else
        createNackMessage 400 NackErrorType.BadRequestError "Nonexistent client" none
    { nacks := [nackMessage], orderCalls := [], metricCalls := [] }
  | some _connection =>
    match throttleError with
    | some throttleErr =>
      { nacks :=
          [createNackMessage throttleErr.code NackErrorType.ThrottlingError
            throttleErr.message throttleErr.retryAfter]
      , orderCalls := [], metricCalls := [] }
    | none =>
      let processed := processBatches rand nowMs messageBatches
      { nacks := [], orderCalls := processed.fst, metricCalls := processed.snd }

/-- All ops of a `submitOp` call, batches flattened in order. -/
def flattenBatches (messageBatches : List SubmitBatch) : List JsObj :=
  List.flatten (List.map flattenBatch messageBatches)

/-! ## Concrete fixtures used to instantiate the theorems -/

/-- A fresh per-socket state. -/
def st0 : SocketState :=
  { connectionsMap := [], roomMap := [], scopeMap := [], expirationTimer := none }

/-- The default configuration of `configureWebSocketServices`. -/
def cfg0 : Config :=
  { maxNumberOfClientsPerDocument := 1000000, maxTokenLifetimeSec := 3600
  , isTokenExpiryEnabled := false }

/-- Claims carried by a token granting `DocWrite` and `SummaryWrite`. -/
def claims0 : ITokenClaims :=
  { tenantId := "t1", documentId := "d1", user := "u1"
  , scopes := [ScopeType.DocWrite, ScopeType.SummaryWrite] }

/-- An established orderer connection. -/
def conn0 : IOrdererConnection :=
  { tenantId := "t1", documentId := "d1", maxMessageSize := 16384
  , serviceConfiguration := DefaultServiceConfiguration }

/-- Collaborator outcomes of an entirely successful connect. -/
def envOk : ConnectEnv :=
  { throttleError := none, claimsResult := Except.ok claims0
  , verifyTokenResult := Except.ok (), clientId := "client-1"
  , joinResult := Except.ok (), now := 0, getClientsResult := Except.ok []
  , addClientResult := Except.ok (), lifeTimeMSec := 100
  , getOrdererResult := Except.ok (), ordererConnectResult := Except.ok conn0 }

/-- A read-mode connect request offering `["^0.4.0"]`. -/
def msgRead : IConnect :=
  { tenantId := "t1", id := "d1", token := some "tok", client := none
  , versions := some [⟨0, 4, 0⟩], mode := "read" }

/-- The same request offering only the unsupported `["^9.0.0"]`. -/
def msgBadProtocol : IConnect := { msgRead with versions := some [⟨9, 0, 0⟩] }

/-- The same request with an explicitly empty versions list. -/
def msgEmptyVersions : IConnect := { msgRead with versions := some [] }

/-- The same request with the versions field absent. -/
def msgNoVersions : IConnect := { msgRead with versions := none }

/-- The same request from a client declaring `details.type = "container"`. -/
def msgContainer : IConnect :=
  { msgRead with client := some { details := some { type := some "container" } } }

/-- Collaborator outcomes when the connect throttler signals exceeded. -/
def envThrottled : ConnectEnv :=
  { envOk with throttleError := some { code := 429, message := "throttled", retryAfter := some 10 } }

/-- A two-client document cap. -/
def cfgQuota2 : Config := { cfg0 with maxNumberOfClientsPerDocument := 2 }

/-- The registry reports exactly two clients already connected. -/
def envTwoClients : ConnectEnv := { envOk with getClientsResult := Except.ok ["a", "b"] }

/-- The registry reports three clients already connected. -/
def envThreeClients : ConnectEnv := { envOk with getClientsResult := Except.ok ["a", "b", "c"] }

/-- Token-expiry enforcement switched on. -/
def cfgExpiry : Config := { cfg0 with isTokenExpiryEnabled := true }

/-- First connect on the socket: token has 100 ms of life left. -/
def envLife100 : ConnectEnv := { envOk with clientId := "c1", lifeTimeMSec := 100 }

/-- Second connect on the same socket: token has 200 ms of life left. -/
def envLife200 : ConnectEnv := { envOk with clientId := "c2", lifeTimeMSec := 200 }

/-- The room of the fixture document. -/
def room0 : IRoom := { tenantId := "t1", documentId := "d1" }

/-- A socket state with a fully connected writer client `"c"`. -/
def stWriter : SocketState :=
  { connectionsMap := [("c", conn0)], roomMap := [("c", room0)]
  , scopeMap := [("c", [ScopeType.DocWrite])], expirationTimer := none }

/-- A RoundTrip message without traces. -/
def rtMsgPlain : JsObj := [("type", JsVal.str MessageType.RoundTrip)]

/-- A RoundTrip message carrying a traces array. -/
def rtMsgTraced : JsObj :=
  [("type", JsVal.str MessageType.RoundTrip), ("traces", JsVal.arr [JsVal.num 7])]

/-- An ordinary op carrying a field outside the whitelist. -/
def opMsg : JsObj :=
  [("type", JsVal.str "op"), ("clientSequenceNumber", JsVal.num 1),
   ("contents", JsVal.str "x"), ("extraField", JsVal.str "secret")]

/-! ## Helper lemmas -/

theorem lookup_filter_ne (m : JsObj) (k f : String) (hf : f ≠ k) :
    List.lookup f (List.filter (fun p => !(p.fst == k)) m) = List.lookup f m := by
  induction m with
  | nil => rfl
  | cons a t ih =>
    by_cases hak : a.fst = k
    · have hfa : (f == a.fst) = false := beq_eq_false_iff_ne.mpr (hak ▸ hf)
      simp [List.filter, hak, List.lookup, hfa, beq_eq_false_iff_ne.mpr hf, ih]
    · have hak2 : (a.fst == k) = false := beq_eq_false_iff_ne.mpr hak
      by_cases hfa : f = a.fst
      · simp [List.filter, hak2, List.lookup, hfa]
      · have hfa2 : (f == a.fst) = false := beq_eq_false_iff_ne.mpr hfa
        simp [List.filter, hak2, List.lookup, hfa2, ih]

theorem lookup_setField_ne (m : JsObj) (k f : String) (v : JsVal) (hf : f ≠ k) :
    List.lookup f (setField m k v) = List.lookup f m := by
  have hfk : (f == k) = false := beq_eq_false_iff_ne.mpr hf
  simp [setField, List.lookup, hfk, lookup_filter_ne m k f hf]

theorem getField_setField_ne (m : JsObj) (k f : String) (v : JsVal) (hf : f ≠ k) :
    getField (setField m k v) f = getField m f := by
  simp [getField, lookup_setField_ne m k f v hf]

theorem getField_sanitizeMutate_ne (sample : Bool) (nowMs : Nat) (m : JsObj)
    (f : String) (hf : f ≠ "operation") :
    getField (sanitizeMutate sample nowMs m) f = getField m f := by
  unfold sanitizeMutate
  split
  · split
    · split
      · exact getField_setField_ne _ _ _ _ hf
      · rfl
    · rfl
  · rfl

theorem sanitizeMessage_lookup (sample : Bool) (nowMs : Nat) (m : JsObj) (k : String) :
    List.lookup k (sanitizeMessage sample nowMs m) =
      if k ∈ sanitizedFields then some (getField m k) else none := by
  have hmut : ∀ f, f ≠ "operation" →
      getField (sanitizeMutate sample nowMs m) f = getField m f :=
    fun f hf => getField_sanitizeMutate_ne sample nowMs m f hf
  unfold sanitizeMessage
  by_cases h1 : k = "clientSequenceNumber"
  · subst h1
    simp [List.lookup, sanitizedFields, hmut "clientSequenceNumber" (by decide)]
  · by_cases h2 : k = "contents"
    · subst h2; simp [List.lookup, sanitizedFields, hmut "contents" (by decide)]
    · by_cases h3 : k = "metadata"
      · subst h3; simp [List.lookup, sanitizedFields, hmut "metadata" (by decide)]
      · by_cases h4 : k = "referenceSequenceNumber"
        · subst h4
          simp [List.lookup, sanitizedFields, hmut "referenceSequenceNumber" (by decide)]
        · by_cases h5 : k = "traces"
          · subst h5; simp [List.lookup, sanitizedFields, hmut "traces" (by decide)]
          · by_cases h6 : k = "type"
            · subst h6; simp [List.lookup, sanitizedFields, hmut "type" (by decide)]
            · simp [List.lookup, sanitizedFields,
                    beq_eq_false_iff_ne.mpr h1, beq_eq_false_iff_ne.mpr h2,
                    beq_eq_false_iff_ne.mpr h3, beq_eq_false_iff_ne.mpr h4,
                    beq_eq_false_iff_ne.mpr h5, beq_eq_false_iff_ne.mpr h6,
                    h1, h2, h3, h4, h5, h6]

theorem getField_sanitizeMessage (sample : Bool) (nowMs : Nat) (m : JsObj)
    (k : String) (hk : k ∈ sanitizedFields) :
    getField (sanitizeMessage sample nowMs m) k = getField m k := by
  simp [getField, sanitizeMessage_lookup, hk]

theorem lookup_mapSet_self {a : Type} (k : String) (v : a) (m : List (String × a)) :
    List.lookup k (mapSet k v m) = some v := by
  simp [mapSet, List.lookup]

theorem isRoundTrip_sanitizeMessage (sample : Bool) (nowMs : Nat) (m : JsObj) :
    isRoundTrip (sanitizeMessage sample nowMs m) = isRoundTrip m := by
  unfold isRoundTrip
  rw [getField_sanitizeMessage sample nowMs m "type" (by decide)]

theorem processBatches_spec (rand : JsObj → Bool) (nowMs : Nat) (bs : List SubmitBatch) :
    processBatches rand nowMs bs =
      (List.filter (fun l => !(List.isEmpty l)) (List.map (batchSanitized rand nowMs) bs),
       List.filterMap roundTripTraces (flattenBatches bs)) := by
  induction bs with
  | nil => rfl
  | cons b rest ih =>
    unfold processBatches
    rw [ih]
    cases hs : batchSanitized rand nowMs b with
    | nil => simp [flattenBatches, List.filterMap_append, hs]
    | cons x xs => simp [flattenBatches, List.filterMap_append, hs]

/-! ## Claim theorems -/

/--
C2 (counterexample): for the client list `["^0.1.0", "^0.4.0"]` the
negotiator returns `"^0.1.0"`, not `"^0.4.0"` as the claim's example
demands; the claim's server-ordered reading (`serverOrderedChoice`) indeed
yields `"^0.4.0"`, so it differs from the code.
-/
theorem selectProtocolVersion_client_order_counterexample :
    selectProtocolVersion [⟨0, 1, 0⟩, ⟨0, 4, 0⟩] = some ⟨0, 1, 0⟩ ∧
    serverOrderedChoice [⟨0, 1, 0⟩, ⟨0, 4, 0⟩] = some ⟨0, 4, 0⟩ ∧
    ¬ selectProtocolVersion [⟨0, 1, 0⟩, ⟨0, 4, 0⟩] = some ⟨0, 4, 0⟩ := by
  refine ⟨by decide, by decide, by decide⟩

/--
C2 (amended): `selectProtocolVersion` scans the client-offered ranges in
order and, for the first client range that intersects any server range,
returns the most-preferred (first) server range intersecting that client
range — i.e. it agrees with `clientOrderedChoice`, not with the
server-ordered reading.
-/
theorem selectProtocolVersion_eq_clientOrderedChoice (connectVersions : List CaretRange) :
    selectProtocolVersion connectVersions = clientOrderedChoice connectVersions := by
  induction connectVersions with
  | nil => rfl
  | cons c rest ih =>
    unfold selectProtocolVersion clientOrderedChoice
    cases hf : List.find? (fun p => semverIntersects p c) protocolVersions with
    | some p =>
      have hp := List.find?_some hf
      have hmem : p ∈ protocolVersions := List.mem_of_find?_eq_some hf
      have hany : List.any protocolVersions (fun p => semverIntersects p c) = true :=
        List.any_eq_true.mpr ⟨p, hmem, hp⟩
      rw [@List.find?_cons_of_pos CaretRange
            (fun c => List.any protocolVersions (fun p => semverIntersects p c)) c rest hany]
      simp [hf]
    | none =>
      have hnone : List.any protocolVersions (fun p => semverIntersects p c) = false := by
        rw [List.any_eq_false]
        intro x hx hpx
        exact absurd hpx (List.find?_eq_none.mp hf x hx)
      rw [@List.find?_cons_of_neg CaretRange
            (fun c => List.any protocolVersions (fun p => semverIntersects p c)) c rest
            (by simp [hnone])]
      rw [ih]
      rfl

/--
C7: the message forwarded to the orderer contains exactly the whitelisted
fields `{clientSequenceNumber, contents, metadata, referenceSequenceNumber,
traces, type}`, each copied from the inbound op, and every other inbound
field is absent from it.
-/
theorem sanitize_whitelist_projection (sample : Bool) (nowMs : Nat) (m : JsObj) (k : String) :
    List.lookup k (sanitizeMessage sample nowMs m) =
      if k ∈ sanitizedFields then some (getField m k) else none :=
  sanitizeMessage_lookup sample nowMs m k

/--
C10: the sanitized message handed to the orderer is identical whether or
not the 1-in-100 trace-sampling draw fires — the sampled span lands only in
`message.operation.traces`, and `operation` is not among the projected
fields.
-/
theorem sanitize_sample_oblivious (nowMs : Nat) (m : JsObj) (s1 s2 : Bool) :
    sanitizeMessage s1 nowMs m = sanitizeMessage s2 nowMs m := by
  simp only [sanitizeMessage]
  rw [getField_sanitizeMutate_ne s1 nowMs m "clientSequenceNumber" (by decide),
      getField_sanitizeMutate_ne s1 nowMs m "contents" (by decide),
      getField_sanitizeMutate_ne s1 nowMs m "metadata" (by decide),
      getField_sanitizeMutate_ne s1 nowMs m "referenceSequenceNumber" (by decide),
      getField_sanitizeMutate_ne s1 nowMs m "traces" (by decide),
      getField_sanitizeMutate_ne s1 nowMs m "type" (by decide),
      getField_sanitizeMutate_ne s2 nowMs m "clientSequenceNumber" (by decide),
      getField_sanitizeMutate_ne s2 nowMs m "contents" (by decide),
      getField_sanitizeMutate_ne s2 nowMs m "metadata" (by decide),
      getField_sanitizeMutate_ne s2 nowMs m "referenceSequenceNumber" (by decide),
      getField_sanitizeMutate_ne s2 nowMs m "traces" (by decide),
      getField_sanitizeMutate_ne s2 nowMs m "type" (by decide)]

/--
C5 (counterexample): client `"c"` is in `connectionsMap`, yet a `submitOp`
whose only batch is a single RoundTrip message forwards nothing to
`connection.order` (and emits no nack either) — refuting "a batch is
forwarded iff clientId is in connectionsMap at dispatch time".
-/
theorem submitOp_forward_iff_counterexample :
    (List.lookup "c" stWriter.connectionsMap).isSome = true ∧
    (submitOpHandler stWriter none (fun _ => false) 0 "c" [Sum.inl rtMsgPlain]).orderCalls
      = [] ∧
    (submitOpHandler stWriter none (fun _ => false) 0 "c" [Sum.inl rtMsgPlain]).nacks = [] :=
  ⟨rfl, rfl, rfl⟩

/--
C5 (amended): a batch is handed to `connection.order` only if the clientId
is in `connectionsMap` at dispatch time; when it is and the submit is not
throttled, a batch element is forwarded iff its sanitized (non-RoundTrip)
content is non-empty and no nack is emitted; when it is but the submit is
throttled, a single throttling nack is emitted and nothing is forwarded;
when the clientId is absent from `connectionsMap`, exactly one nack is
emitted whose code is (400, BadRequestError, "Readonly client") when the
clientId is in `roomMap` with write-capable scopes, (403,
InvalidScopeError, "Invalid scope") when it is in `roomMap` otherwise, and
(400, BadRequestError, "Nonexistent client") when it is not in `roomMap`
(the handler reads the scopes from `scopeMap`, whose key set matches
`roomMap`'s on every reachable state).
-/
theorem submitOp_writer_gating (st : SocketState) (throttleError : Option ErrObj)
    (rand : JsObj → Bool) (nowMs : Nat) (clientId : String)
    (messageBatches : List SubmitBatch)
    (hkeys : (List.lookup clientId st.roomMap).isSome
      = (List.lookup clientId st.scopeMap).isSome) :
    (List.lookup clientId st.connectionsMap = none →
      (submitOpHandler st throttleError rand nowMs clientId messageBatches).orderCalls
        = [] ∧
      (∀ room, List.lookup clientId st.roomMap = some room →
        ∃ sc, List.lookup clientId st.scopeMap = some sc ∧
          (submitOpHandler st throttleError rand nowMs clientId messageBatches).nacks =
            [if hasWriteAccess sc then
                createNackMessage 400 NackErrorType.BadRequestError "Readonly client" none
              else
                createNackMessage 403 NackErrorType.InvalidScopeError "Invalid scope" none]) ∧
      (List.lookup clientId st.roomMap = none →
        (submitOpHandler st throttleError rand nowMs clientId messageBatches).nacks =
          [createNackMessage 400 NackErrorType.BadRequestError "Nonexistent client" none])) ∧
    (∀ conn, List.lookup clientId st.connectionsMap = some conn →
      (throttleError = none →
        (submitOpHandler st throttleError rand nowMs clientId messageBatches).nacks = [] ∧
        (submitOpHandler st throttleError rand nowMs clientId messageBatches).orderCalls =
          List.filter (fun l => !(List.isEmpty l))
            (List.map (batchSanitized rand nowMs) messageBatches)) ∧
      (∀ te, throttleError = some te →
        (submitOpHandler st throttleError rand nowMs clientId messageBatches).nacks =
          [createNackMessage te.code NackErrorType.ThrottlingError te.message te.retryAfter] ∧
        (submitOpHandler st throttleError rand nowMs clientId messageBatches).orderCalls
          = [])) := by
  constructor
  · intro hconn
    refine ⟨by simp [submitOpHandler, hconn], ?_, ?_⟩
    · intro room hroom
      have hsome : (List.lookup clientId st.scopeMap).isSome = true := by
        rw [← hkeys, hroom]; rfl
      rcases Option.isSome_iff_exists.mp hsome with ⟨sc, hsc⟩
      refine ⟨sc, hsc, ?_⟩
      cases hwa : hasWriteAccess sc with
      | true => simp [submitOpHandler, hconn, hsc, hwa]
      | false => simp [submitOpHandler, hconn, hsc, hwa, hroom]
    · intro hroom
      have hnone : List.lookup clientId st.scopeMap = none := by
        have := hkeys
        rw [hroom] at this
        cases hsc : List.lookup clientId st.scopeMap with
        | none => rfl
        | some sc => rw [hsc] at this; exact absurd this.symm (by simp)
      simp [submitOpHandler, hconn, hnone, hroom]
  · intro conn hconn
    constructor
    · intro hth
      subst hth
      constructor
      · simp [submitOpHandler, hconn]
      · simp [submitOpHandler, hconn, processBatches_spec]
    · intro te hte
      subst hte
      constructor
      · simp [submitOpHandler, hconn]
      · simp [submitOpHandler, hconn]

/--
C5 (witness): on a fresh socket state an unknown clientId is nacked
`(400, BadRequestError, "Nonexistent client")`.
-/
theorem submitOp_writer_gating_witness :
    (submitOpHandler st0 none (fun _ => false) 0 "ghost" []).nacks =
      [createNackMessage 400 NackErrorType.BadRequestError "Nonexistent client" none] :=
  (((submitOp_writer_gating st0 none (fun _ => false) 0 "ghost" [] rfl).1 rfl).2.2) rfl

/--
C8: when a connected client's submit is dispatched (no throttle), the
metric sink receives exactly the truthy `traces` of each RoundTrip
message, once per message and in op order, and no RoundTrip message is
ever part of a batch handed to `connection.order`.
-/
theorem submitOp_roundTrip_metrics (st : SocketState) (rand : JsObj → Bool) (nowMs : Nat)
    (clientId : String) (messageBatches : List SubmitBatch) (conn : IOrdererConnection)
    (hconn : List.lookup clientId st.connectionsMap = some conn) :
    (submitOpHandler st none rand nowMs clientId messageBatches).metricCalls =
      List.filterMap roundTripTraces (flattenBatches messageBatches) ∧
    ∀ sent ∈ (submitOpHandler st none rand nowMs clientId messageBatches).orderCalls,
      ∀ m ∈ sent, isRoundTrip m = false := by
  constructor
  · simp [submitOpHandler, hconn, processBatches_spec]
  · intro sent hsent m hm
    simp only [submitOpHandler, hconn, processBatches_spec] at hsent
    have hsent2 := List.mem_filter.mp hsent
    rcases List.mem_map.mp hsent2.1 with ⟨b, hb, hbeq⟩
    subst hbeq
    unfold batchSanitized at hm
    rcases List.mem_map.mp hm with ⟨m0, hm0, hmeq⟩
    subst hmeq
    have h3 := List.mem_filter.mp hm0
    rw [isRoundTrip_sanitizeMessage]
    simpa using h3.2

/--
C8 (witness): a dispatched submit with one traced RoundTrip, one ordinary
op and one untraced RoundTrip yields exactly the traced RoundTrip's traces
at the metric sink.
-/
theorem submitOp_roundTrip_metrics_witness :
    (submitOpHandler stWriter none (fun _ => false) 0 "c"
        [Sum.inr [rtMsgTraced, opMsg], Sum.inl rtMsgPlain]).metricCalls =
      List.filterMap roundTripTraces
        (flattenBatches [Sum.inr [rtMsgTraced, opMsg], Sum.inl rtMsgPlain]) :=
  (submitOp_roundTrip_metrics stWriter (fun _ => false) 0 "c"
      [Sum.inr [rtMsgTraced, opMsg], Sum.inl rtMsgPlain] conn0 rfl).1

/--
C4 (counterexample): with `maxNumberOfClientsPerDocument = 2` and the
registry reporting exactly two clients already connected, a third
`connect_document` is admitted (the quota test is strict `>`), not
rejected as the claim states.
-/
theorem connect_quota_two_clients_counterexample :
    cfgQuota2.maxNumberOfClientsPerDocument = 2 ∧
    envTwoClients.getClientsResult = Except.ok ["a", "b"] ∧
    isOkE (connectDocument cfgQuota2 envTwoClients msgRead st0).fst = true :=
  ⟨rfl, rfl, rfl⟩

/--
C4 (amended): a connect is rejected
`{429, "Too Many Clients Connected to Document", retryAfter: 300}` exactly
when the registry's client list is strictly longer than
`maxNumberOfClientsPerDocument` — so with a cap of 2 the rejection first
fires with three prior clients, not two.
-/
theorem connect_quota_exceeded (cfg : Config) (env : ConnectEnv) (message : IConnect)
    (st : SocketState) (tok : String) (claims : ITokenClaims) (v : CaretRange)
    (clients : List String)
    (h1 : env.throttleError = none) (h2 : message.token = some tok)
    (h3 : env.claimsResult = Except.ok claims) (h4 : env.verifyTokenResult = Except.ok ())
    (h5 : env.joinResult = Except.ok ())
    (h6 : selectProtocolVersion (connectVersionsOf message) = some v)
    (h7 : env.getClientsResult = Except.ok clients)
    (h8 : clients.length > cfg.maxNumberOfClientsPerDocument) :
    (connectDocument cfg env message st).fst =
      Except.error { code := 429, message := "Too Many Clients Connected to Document"
                   , retryAfter := some (5 * 60) } := by
  simp [connectDocument, h1, h2, h3, h4, h5, h6, h7, h8]

/--
C4 (witness): with a cap of 2 and three prior clients the connect is
rejected with the 429 quota error.
-/
theorem connect_quota_exceeded_witness :
    (connectDocument cfgQuota2 envThreeClients msgRead st0).fst =
      Except.error { code := 429, message := "Too Many Clients Connected to Document"
                   , retryAfter := some (5 * 60) } :=
  connect_quota_exceeded cfgQuota2 envThreeClients msgRead st0 "tok" claims0 ⟨0, 4, 0⟩
    ["a", "b", "c"] rfl rfl rfl rfl rfl rfl rfl (by decide)

/--
C3 (counterexample): a `connect_document` whose versions field is the
empty list is rejected with the 400 unsupported-protocol error, not
treated as `["^0.1.0"]` as the claim states (an empty array is truthy, so
the `["^0.1.0"]` default applies only to an absent field).
-/
theorem connect_empty_versions_counterexample :
    errCodeOf (connectDocument cfg0 envOk msgEmptyVersions st0).fst = some 400 ∧
    isOkE (connectDocument cfg0 envOk msgEmptyVersions st0).fst = false :=
  ⟨rfl, rfl⟩

/--
C3 (amended): only an absent versions field is treated as `["^0.1.0"]` —
then negotiation cannot produce the 400 unsupported-protocol rejection and
a successful connect carries version `"^0.1.0"` — whereas an explicitly
empty versions list is rejected with the 400 unsupported-protocol error.
-/
theorem connect_versions_default (cfg : Config) (env : ConnectEnv) (message : IConnect)
    (st : SocketState) (tok : String) (claims : ITokenClaims)
    (h1 : env.throttleError = none) (h2 : message.token = some tok)
    (h3 : env.claimsResult = Except.ok claims) (h4 : env.verifyTokenResult = Except.ok ())
    (h5 : env.joinResult = Except.ok ()) :
    (message.versions = some [] →
      (connectDocument cfg env message st).fst =
        Except.error { code := 400, message := unsupportedProtocolMessage []
                     , retryAfter := none }) ∧
    (message.versions = none →
      (∀ e, (connectDocument cfg env message st).fst = Except.error e → e.code ≠ 400) ∧
      (∀ r, (connectDocument cfg env message st).fst = Except.ok r →
        r.connection.version = ⟨0, 1, 0⟩)) := by
  constructor
  · intro hv
    simp [connectDocument, h1, h2, h3, h4, h5, connectVersionsOf, hv, selectProtocolVersion]
  · intro hv
    have hsel : selectProtocolVersion (connectVersionsOf message) = some ⟨0, 1, 0⟩ := by
      simp [connectVersionsOf, hv]
      decide
    cases hgc : env.getClientsResult with
    | error s =>
      constructor
      · intro e he
        simp [connectDocument, h1, h2, h3, h4, h5, hsel, hgc] at he
        rw [← he]
        decide
      · intro r hr
        simp [connectDocument, h1, h2, h3, h4, h5, hsel, hgc] at hr
    | ok clients =>
      by_cases hq : clients.length > cfg.maxNumberOfClientsPerDocument
      · constructor
        · intro e he
          simp [connectDocument, h1, h2, h3, h4, h5, hsel, hgc, hq] at he
          rw [← he]
          decide
        · intro r hr
          simp [connectDocument, h1, h2, h3, h4, h5, hsel, hgc, hq] at hr
      · cases hadd : env.addClientResult with
        | error s =>
          constructor
          · intro e he
            simp [connectDocument, h1, h2, h3, h4, h5, hsel, hgc, hq, hadd] at he
            rw [← he]
            decide
          · intro r hr
            simp [connectDocument, h1, h2, h3, h4, h5, hsel, hgc, hq, hadd] at hr
        | ok u =>
          by_cases hw : isWriter (composeClient message claims env.now).scopes message.mode
          · cases hgo : env.getOrdererResult with
            | error s =>
              constructor
              · intro e he
                simp [connectDocument, h1, h2, h3, h4, h5, hsel, hgc, hq, hadd, hw, hgo]
                    at he
                rw [← he]
                decide
              · intro r hr
                simp [connectDocument, h1, h2, h3, h4, h5, hsel, hgc, hq, hadd, hw, hgo]
                    at hr
            | ok v2 =>
              cases hoc : env.ordererConnectResult with
              | error s =>
                constructor
                · intro e he
                  simp [connectDocument, h1, h2, h3, h4, h5, hsel, hgc, hq, hadd, hw, hgo,
                        hoc] at he
                  rw [← he]
                  decide
                · intro r hr
                  simp [connectDocument, h1, h2, h3, h4, h5, hsel, hgc, hq, hadd, hw, hgo,
                        hoc] at hr
              | ok connection =>
                constructor
                · intro e he
                  simp [connectDocument, h1, h2, h3, h4, h5, hsel, hgc, hq, hadd, hw, hgo,
                        hoc] at he
                · intro r hr
                  simp [connectDocument, h1, h2, h3, h4, h5, hsel, hgc, hq, hadd, hw, hgo,
                        hoc] at hr
                  rw [← hr]
                  rfl
          · constructor
            · intro e he
              simp [connectDocument, h1, h2, h3, h4, h5, hsel, hgc, hq, hadd, hw] at he
            · intro r hr
              simp [connectDocument, h1, h2, h3, h4, h5, hsel, hgc, hq, hadd, hw] at hr
              rw [← hr]
              rfl

/--
C3 (witness): the fixture connect with an empty versions list produces the
400 unsupported-protocol rejection.
-/
theorem connect_versions_default_witness :
    (connectDocument cfg0 envOk msgEmptyVersions st0).fst =
      Except.error { code := 400, message := unsupportedProtocolMessage []
                   , retryAfter := none } :=
  (connect_versions_default cfg0 envOk msgEmptyVersions st0 "tok" claims0
      rfl rfl rfl rfl rfl).1 rfl

/--
C9 (counterexample): after a second successful `connect_document` on the
same socket whose token expires later (200 ms) than the first client's
(100 ms), the armed deadline is the later one — `setExpirationTimer`
overwrites the timer on every connect — refuting "the armed deadline is
still the first (sooner) expiration".
-/
theorem expiration_timer_overwrite_counterexample :
    isOkE (connectDocument cfgExpiry envLife100 msgRead st0).fst = true ∧
    isOkE (connectDocument cfgExpiry envLife200 msgRead
        (connectDocument cfgExpiry envLife100 msgRead st0).snd.fst).fst = true ∧
    (connectDocument cfgExpiry envLife100 msgRead st0).snd.fst.expirationTimer
      = some 100 ∧
    (connectDocument cfgExpiry envLife200 msgRead
        (connectDocument cfgExpiry envLife100 msgRead st0).snd.fst).snd.fst.expirationTimer
      = some 200 ∧
    ¬(200 : Nat) = 100 :=
  ⟨rfl, rfl, rfl, rfl, by decide⟩

/--
C9 (amended): with token expiry enabled, every successful
`connect_document` re-arms the single per-socket `expirationTimer` for its
own token's expiration (`now + lifeTimeMSec`), unconditionally replacing
the previously armed deadline — so the armed deadline is the most recent
client's expiration, not the soonest across the socket's clients.
-/
theorem expiration_timer_last_armed (cfg : Config) (env : ConnectEnv) (message : IConnect)
    (st : SocketState) (hexp : cfg.isTokenExpiryEnabled = true)
    (hok : isOkE (connectDocument cfg env message st).fst = true) :
    (connectDocument cfg env message st).snd.fst.expirationTimer =
      some (env.now + env.lifeTimeMSec) := by
  cases hth : env.throttleError with
  | some e => simp [connectDocument, hth, isOkE] at hok
  | none =>
  cases htok : message.token with
  | none => simp [connectDocument, hth, htok, isOkE] at hok
  | some tok =>
  cases hcl : env.claimsResult with
  | error e => simp [connectDocument, hth, htok, hcl, isOkE] at hok
  | ok claims =>
  cases hver : env.verifyTokenResult with
  | error p => simp [connectDocument, hth, htok, hcl, hver, isOkE] at hok
  | ok u =>
  cases hjoin : env.joinResult with
  | error s => simp [connectDocument, hth, htok, hcl, hver, hjoin, isOkE] at hok
  | ok v =>
  cases hsel : selectProtocolVersion (connectVersionsOf message) with
  | none => simp [connectDocument, hth, htok, hcl, hver, hjoin, hsel, isOkE] at hok
  | some ver =>
  cases hgc : env.getClientsResult with
  | error s => simp [connectDocument, hth, htok, hcl, hver, hjoin, hsel, hgc, isOkE] at hok
  | ok clients =>
  by_cases hq : clients.length > cfg.maxNumberOfClientsPerDocument
  · simp [connectDocument, hth, htok, hcl, hver, hjoin, hsel, hgc, hq, isOkE] at hok
  · cases hadd : env.addClientResult with
    | error s =>
      simp [connectDocument, hth, htok, hcl, hver, hjoin, hsel, hgc, hq, hadd, isOkE] at hok
    | ok w =>
    by_cases hw : isWriter (composeClient message claims env.now).scopes message.mode
    · cases hgo : env.getOrdererResult with
      | error s =>
        simp [connectDocument, hth, htok, hcl, hver, hjoin, hsel, hgc, hq, hadd, hw, hgo,
              isOkE] at hok
      | ok x =>
      cases hoc : env.ordererConnectResult with
      | error s =>
        simp [connectDocument, hth, htok, hcl, hver, hjoin, hsel, hgc, hq, hadd, hw, hgo,
              hoc, isOkE] at hok
      | ok connection =>
        simp [connectDocument, hth, htok, hcl, hver, hjoin, hsel, hgc, hq, hadd, hw, hgo,
              hoc, hexp, setExpirationTimer]
    · simp [connectDocument, hth, htok, hcl, hver, hjoin, hsel, hgc, hq, hadd, hw, hexp,
            setExpirationTimer]

/--
C9 (witness): the fixture connect with a 100 ms token arms the timer for
deadline 100.
-/
theorem expiration_timer_last_armed_witness :
    (connectDocument cfgExpiry envLife100 msgRead st0).snd.fst.expirationTimer =
      some (envLife100.now + envLife100.lifeTimeMSec) :=
  expiration_timer_last_armed cfgExpiry envLife100 msgRead st0 rfl rfl

/--
C6: on any accepted connect whose client descriptor does not declare
`details.type = "summarizer"`, the scope set cached in `scopeMap` and the
descriptor registered with the client registry contain no `SummaryWrite`
scope, whatever scopes the token claims carried.
-/
theorem connect_scope_strip (cfg : Config) (env : ConnectEnv) (message : IConnect)
    (st : SocketState)
    (hok : isOkE (connectDocument cfg env message st).fst = true)
    (hty : clientDetailsType message.client ≠ some summarizerClientType) :
    (∀ s, List.lookup env.clientId
        (connectDocument cfg env message st).snd.fst.scopeMap = some s →
      ScopeType.SummaryWrite ∉ s) ∧
    (∀ call ∈ (connectDocument cfg env message st).snd.snd.addClientCalls,
      ScopeType.SummaryWrite ∉ call.client.scopes) := by
  have hsum : (clientDetailsType message.client == some summarizerClientType) = false :=
    beq_eq_false_iff_ne.mpr hty
  have hscopes : ∀ claims : ITokenClaims, ScopeType.SummaryWrite ∉
      (composeClient message claims env.now).scopes := by
    intro claims hmem
    rw [composeClient] at hmem
    simp only [hsum, if_false] at hmem
    have := (List.mem_filter.mp hmem).2
    simp at this
  cases hth : env.throttleError with
  | some e => simp [connectDocument, hth, isOkE] at hok
  | none =>
  cases htok : message.token with
  | none => simp [connectDocument, hth, htok, isOkE] at hok
  | some tok =>
  cases hcl : env.claimsResult with
  | error e => simp [connectDocument, hth, htok, hcl, isOkE] at hok
  | ok claims =>
  cases hver : env.verifyTokenResult with
  | error p => simp [connectDocument, hth, htok, hcl, hver, isOkE] at hok
  | ok u =>
  cases hjoin : env.joinResult with
  | error s => simp [connectDocument, hth, htok, hcl, hver, hjoin, isOkE] at hok
  | ok v =>
  cases hsel : selectProtocolVersion (connectVersionsOf message) with
  | none => simp [connectDocument, hth, htok, hcl, hver, hjoin, hsel, isOkE] at hok
  | some ver =>
  cases hgc : env.getClientsResult with
  | error s => simp [connectDocument, hth, htok, hcl, hver, hjoin, hsel, hgc, isOkE] at hok
  | ok clients =>
  by_cases hq : clients.length > cfg.maxNumberOfClientsPerDocument
  · simp [connectDocument, hth, htok, hcl, hver, hjoin, hsel, hgc, hq, isOkE] at hok
  · cases hadd : env.addClientResult with
    | error s =>
      simp [connectDocument, hth, htok, hcl, hver, hjoin, hsel, hgc, hq, hadd, isOkE] at hok
    | ok w =>
    by_cases hw : isWriter (composeClient message claims env.now).scopes message.mode
    · cases hgo : env.getOrdererResult with
      | error s =>
        simp [connectDocument, hth, htok, hcl, hver, hjoin, hsel, hgc, hq, hadd, hw, hgo,
              isOkE] at hok
      | ok x =>
      cases hoc : env.ordererConnectResult with
      | error s =>
        simp [connectDocument, hth, htok, hcl, hver, hjoin, hsel, hgc, hq, hadd, hw, hgo,
              hoc, isOkE] at hok
      | ok connection =>
        constructor
        · intro s hs
          simp [connectDocument, hth, htok, hcl, hver, hjoin, hsel, hgc, hq, hadd, hw,
                hgo, hoc] at hs
          split at hs <;>
            (simp [setExpirationTimer, lookup_mapSet_self] at hs; subst hs;
              exact hscopes claims)
        · intro call hcall
          simp [connectDocument, hth, htok, hcl, hver, hjoin, hsel, hgc, hq, hadd, hw,
                hgo, hoc] at hcall
          rw [hcall]
          exact hscopes claims
    · constructor
      · intro s hs
        simp [connectDocument, hth, htok, hcl, hver, hjoin, hsel, hgc, hq, hadd, hw] at hs
        split at hs <;>
          (simp [setExpirationTimer, lookup_mapSet_self] at hs; subst hs;
            exact hscopes claims)
      · intro call hcall
        simp [connectDocument, hth, htok, hcl, hver, hjoin, hsel, hgc, hq, hadd, hw]
            at hcall
        rw [hcall]
        exact hscopes claims

/--
C6 (witness): the fixture connect of a `"container"` client whose token
claims `[DocWrite, SummaryWrite]` caches exactly `[DocWrite]`.
-/
theorem connect_scope_strip_witness :
    ScopeType.SummaryWrite ∉ [ScopeType.DocWrite] :=
  (connect_scope_strip cfg0 envOk msgContainer st0 rfl (by decide)).1
    [ScopeType.DocWrite] rfl

/--
C1 (counterexample): a connect that fails at protocol negotiation (client
offers only `"^9.0.0"`) emits the 400 error, yet the in-flight clientId IS
present in `roomMap` and `scopeMap` afterwards — they are populated before
negotiation runs — refuting "the per-socket maps are left unchanged".
-/
theorem connect_failure_keeps_maps_counterexample :
    errCodeOf (connectDocument cfg0 envOk msgBadProtocol st0).fst = some 400 ∧
    (List.lookup "client-1"
        (connectDocument cfg0 envOk msgBadProtocol st0).snd.fst.roomMap).isSome = true ∧
    (List.lookup "client-1"
        (connectDocument cfg0 envOk msgBadProtocol st0).snd.fst.scopeMap).isSome = true :=
  ⟨rfl, rfl, rfl⟩

/--
C1 (amended): every failing `connect_document` emits exactly one
`connect_document_error` carrying the step's error, and the in-flight
clientId is never committed to `connectionsMap`; failures at throttle,
missing token, token validation, tenant verification and room join leave
the per-socket state entirely unchanged, but failures at protocol
negotiation, quota, registry add or orderer attach happen after `roomMap`
and `scopeMap` were populated, so the in-flight clientId remains present
in those two maps.
-/
theorem connect_failure_state (cfg : Config) (env : ConnectEnv) (message : IConnect)
    (st : SocketState) (e : ErrObj)
    (herr : (connectDocument cfg env message st).fst = Except.error e) :
    connectDocumentHandlerEmits cfg env message st = [SocketEmit.connectDocumentError e] ∧
    (connectDocument cfg env message st).snd.fst.connectionsMap = st.connectionsMap ∧
    (earlyConnectFailure env message → (connectDocument cfg env message st).snd.fst = st) ∧
    (¬ earlyConnectFailure env message →
      (List.lookup env.clientId
          (connectDocument cfg env message st).snd.fst.roomMap).isSome = true ∧
      (List.lookup env.clientId
          (connectDocument cfg env message st).snd.fst.scopeMap).isSome = true) := by
  have hemits : connectDocumentHandlerEmits cfg env message st
      = [SocketEmit.connectDocumentError e] := by
    unfold connectDocumentHandlerEmits
    rcases hres : connectDocument cfg env message st with ⟨res, st2, tr⟩
    rw [hres] at herr
    have hres2 : res = Except.error e := herr
    subst hres2
    rfl
  refine ⟨hemits, ?_⟩
  cases hth : env.throttleError with
  | some te =>
    refine ⟨by simp [connectDocument, hth], fun _ => by simp [connectDocument, hth], ?_⟩
    intro hne
    exact absurd (Or.inl (by simp [hth])) hne
  | none =>
  cases htok : message.token with
  | none =>
    refine ⟨by simp [connectDocument, hth, htok],
      fun _ => by simp [connectDocument, hth, htok], ?_⟩
    intro hne
    exact absurd (Or.inr (Or.inl htok)) hne
  | some tok =>
  cases hcl : env.claimsResult with
  | error ce =>
    refine ⟨by simp [connectDocument, hth, htok, hcl],
      fun _ => by simp [connectDocument, hth, htok, hcl], ?_⟩
    intro hne
    exact absurd (Or.inr (Or.inr (Or.inl ⟨ce, hcl⟩))) hne
  | ok claims =>
  cases hver : env.verifyTokenResult with
  | error p =>
    refine ⟨by simp [connectDocument, hth, htok, hcl, hver],
      fun _ => by simp [connectDocument, hth, htok, hcl, hver], ?_⟩
    intro hne
    exact absurd (Or.inr (Or.inr (Or.inr (Or.inl ⟨p, hver⟩)))) hne
  | ok u =>
  cases hjoin : env.joinResult with
  | error js =>
    refine ⟨by simp [connectDocument, hth, htok, hcl, hver, hjoin],
      fun _ => by simp [connectDocument, hth, htok, hcl, hver, hjoin], ?_⟩
    intro hne
    exact absurd (Or.inr (Or.inr (Or.inr (Or.inr ⟨js, hjoin⟩)))) hne
  | ok jv =>
  have hlate : ¬ earlyConnectFailure env message := by
    rintro (h | h | ⟨x, h⟩ | ⟨x, h⟩ | ⟨x, h⟩) <;> simp_all
  cases hsel : selectProtocolVersion (connectVersionsOf message) with
  | none =>
    refine ⟨by simp [connectDocument, hth, htok, hcl, hver, hjoin, hsel],
      fun hearly => absurd hearly hlate, fun _ => ?_⟩
    constructor <;>
      simp [connectDocument, hth, htok, hcl, hver, hjoin, hsel, lookup_mapSet_self]
  | some ver =>
  cases hgc : env.getClientsResult with
  | error gs =>
    refine ⟨by simp [connectDocument, hth, htok, hcl, hver, hjoin, hsel, hgc],
      fun hearly => absurd hearly hlate, fun _ => ?_⟩
    constructor <;>
      simp [connectDocument, hth, htok, hcl, hver, hjoin, hsel, hgc, lookup_mapSet_self]
  | ok clients =>
  by_cases hq : clients.length > cfg.maxNumberOfClientsPerDocument
  · refine ⟨by simp [connectDocument, hth, htok, hcl, hver, hjoin, hsel, hgc, hq],
      fun hearly => absurd hearly hlate, fun _ => ?_⟩
    constructor <;>
      simp [connectDocument, hth, htok, hcl, hver, hjoin, hsel, hgc, hq, lookup_mapSet_self]
  · cases hadd : env.addClientResult with
    | error as =>
      refine ⟨by simp [connectDocument, hth, htok, hcl, hver, hjoin, hsel, hgc, hq, hadd],
        fun hearly => absurd hearly hlate, fun _ => ?_⟩
      constructor <;>
        simp [connectDocument, hth, htok, hcl, hver, hjoin, hsel, hgc, hq, hadd,
              lookup_mapSet_self]
    | ok aw =>
    by_cases hw : isWriter (composeClient message claims env.now).scopes message.mode
    · cases hgo : env.getOrdererResult with
      | error os =>
        refine ⟨?_, fun hearly => absurd hearly hlate, fun _ => ?_⟩
        · simp [connectDocument, hth, htok, hcl, hver, hjoin, hsel, hgc, hq, hadd, hw,
                hgo, setExpirationTimer, apply_ite SocketState.connectionsMap]
        · constructor <;>
            simp [connectDocument, hth, htok, hcl, hver, hjoin, hsel, hgc, hq, hadd, hw,
                  hgo, setExpirationTimer, apply_ite SocketState.roomMap,
                  apply_ite SocketState.scopeMap, lookup_mapSet_self]
      | ok ou =>
      cases hoc : env.ordererConnectResult with
      | error cs =>
        refine ⟨?_, fun hearly => absurd hearly hlate, fun _ => ?_⟩
        · simp [connectDocument, hth, htok, hcl, hver, hjoin, hsel, hgc, hq, hadd, hw,
                hgo, hoc, setExpirationTimer, apply_ite SocketState.connectionsMap]
        · constructor <;>
            simp [connectDocument, hth, htok, hcl, hver, hjoin, hsel, hgc, hq, hadd, hw,
                  hgo, hoc, setExpirationTimer, apply_ite SocketState.roomMap,
                  apply_ite SocketState.scopeMap, lookup_mapSet_self]
      | ok connection =>
        exfalso
        simp [connectDocument, hth, htok, hcl, hver, hjoin, hsel, hgc, hq, hadd, hw,
              hgo, hoc] at herr
    · exfalso
      simp [connectDocument, hth, htok, hcl, hver, hjoin, hsel, hgc, hq, hadd, hw] at herr

/--
C1 (witness): a throttled connect (an early failure) leaves the per-socket
state exactly as it was.
-/
theorem connect_failure_state_witness :
    (connectDocument cfg0 envThrottled msgRead st0).snd.fst = st0 :=
  (connect_failure_state cfg0 envThrottled msgRead st0
      { code := 429, message := "throttled", retryAfter := some 10 } rfl).2.2.1
    (Or.inl rfl)

end FluidGateway
